import Mathlib

/-
Verification of the Underworld2 function-evaluation layer and solver
configuration against its specification.

Shallow embedding of:
  * Fn::SafeMaths::getFunction      (Underworld/Function/src/SafeMaths.cpp)
  * Fn::At::getFunction             (Underworld/Function/src/Unary.cpp)
  * Fn::GradFeVariableFn            (GradFeVariableFn.cpp)
  * StokesSolver.set_inner_method   (modelled from the spec, see below)

Modelling conventions:
  * C++ `double` values are modelled as opaque 64-bit patterns (`DoubleBits`);
    none of the verified code paths computes on double values, it only moves
    them around, so bit-pattern identity is the right notion of equality.
  * `FunctionIO` objects (passed as `IOsptr` shared pointers in the source)
    are modelled as a tagged union, following the spec's design note that the
    `dynamic_cast` dispatch is a tagged-union dispatch over
    element-local / mesh-vertex / global-coordinate inputs.
  * Fallible C++ code (throw) is modelled with `Except String`.
  * The hardware floating-point environment (status flags plus control modes)
    is threaded explicitly through `SafeMaths.guardedCall`; `feholdexcept`,
    `fetestexcept` and `feupdateenv` are modelled with their C semantics
    (`feupdateenv` re-installs the saved environment and keeps the exceptions
    raised since the save pending).
  * External StgFEM primitives (interpolation, point location, incidence
    queries) are parameters of the embedding (`MeshOps`), since they live in
    the external mesh/field framework.
-/

set_option maxRecDepth 65536

namespace UW2

/-- A single-quote character as a string (used inside several source error
messages). -/
def squote : String := ⟨[Char.ofNat 39]⟩

/-- An IEEE-754 double, represented by its (opaque) 64-bit pattern. -/
structure DoubleBits where
  bits : Nat
deriving DecidableEq, Repr

/-- FunctionIO::IOType from the source: output shape tag. -/
inductive IOType
  | Scalar
  | Vector
  | Tensor
deriving DecidableEq, Repr

/-- Tagged union of the FunctionIO class hierarchy, following the spec's
design note (`enum \x7bElementLocal, MeshVertex, GlobalCoord\x7d + payload`):
`ioDouble` is an `IO_double` (a plain array of doubles with a shape tag),
`femCoordinate` is an element-local coordinate (mesh, element index, local
coordinate), `meshCoordinate` is a mesh-vertex coordinate (mesh object,
vertex index), and `otherKind` stands for any other FunctionIO object.
Meshes and mesh objects are identified by their pointer, modelled as `Nat`.
The source passes these as shared pointers of type `IOsptr`. -/
inductive IOsptr
  | ioDouble (iotype : IOType) (data : List DoubleBits)
  | femCoordinate (mesh : Nat) (index : Nat) (localCoord : List DoubleBits)
  | meshCoordinate (object : Nat) (index : Nat)
  | otherKind
deriving DecidableEq, Repr

/-- The raw data buffer of a FunctionIO object (`dataRaw()` in the source),
at double (8-byte) granularity. Objects with no double payload yield an
empty buffer. -/
def IOsptr.rawData : IOsptr → List DoubleBits
  | .ioDouble _ d => d
  | .femCoordinate _ _ lc => lc
  | .meshCoordinate _ _ => []
  | .otherKind => []

/-- Whether a FunctionIO object dynamic-casts to `IO_double`. -/
def IOsptr.isIODouble : IOsptr → Bool
  | .ioDouble _ _ => true
  | _ => false

/- ===================== Floating-point environment ===================== -/

/-- Hardware floating-point exception status flags (cfenv). -/
structure FPFlags where
  divbyzero : Bool
  invalid : Bool
  overflow : Bool
  underflow : Bool
  inexact : Bool
deriving DecidableEq, Repr

/-- All exception flags cleared. -/
def clearedFlags : FPFlags := ⟨false, false, false, false, false⟩

/-- Union of two flag sets (raising exceptions accumulates flags). -/
def orFlags (a b : FPFlags) : FPFlags :=
  ⟨a.divbyzero || b.divbyzero, a.invalid || b.invalid, a.overflow || b.overflow,
   a.underflow || b.underflow, a.inexact || b.inexact⟩

/-- Floating-point control modes: rounding mode plus per-exception trap
enablement. -/
structure FPCtrl where
  rounding : Nat
  traps : FPFlags
deriving DecidableEq, Repr

/-- The global floating-point environment: control modes plus status flags. -/
structure FEnv where
  ctrl : FPCtrl
  flags : FPFlags
deriving DecidableEq, Repr

/-- The C `std::fetestexcept(FE_DIVBYZERO | FE_INVALID | FE_OVERFLOW |
FE_UNDERFLOW)` test used by SafeMaths: true iff one of the four tested flags
is set. -/
def fetestexcept4 (fl : FPFlags) : Bool :=
  fl.divbyzero || fl.invalid || fl.overflow || fl.underflow

/-- The C `std::feholdexcept` semantics applied to an environment: the
resulting current environment has all status flags cleared and non-stop
mode installed (all traps disabled); the rounding mode is kept. The prior
environment is saved separately by the caller. -/
def feholdexcept (env : FEnv) : FEnv :=
  ⟨⟨env.ctrl.rounding, clearedFlags⟩, clearedFlags⟩

/-- The C `std::feupdateenv` semantics: re-install the saved environment
(control modes and status flags), keeping the exceptions raised since the
save pending, i.e. the final flags are the union of the saved flags and the
currently raised flags. -/
def feupdateenv (saved cur : FEnv) : FEnv :=
  ⟨saved.ctrl, orFlags saved.flags cur.flags⟩

/- ========================== Fn::SafeMaths ========================== -/

/-- The error message assembled by `Fn::SafeMaths`'s guarded lambda from the
`fetestexcept` probes of the four tested exceptions (SafeMaths.cpp lines
36-45). -/
def safeMathsMsg (fl : FPFlags) : String :=
  "Floating point exception(s) encountered while evaluating SafeMaths argument function:\n"
  ++ (if fl.divbyzero then "   Divide by zero" else "")
  ++ (if fl.invalid then "   Invalid domain" else "")
  ++ (if fl.overflow then "   Value overflow" else "")
  ++ (if fl.underflow then "   Value underflow" else "")

/-- The guarded closure returned by `Fn::SafeMaths::getFunction`
(SafeMaths.cpp lines 22-60), evaluated on one input in a given
floating-point environment. The wrapped child closure `f` returns its
output together with the set of hardware exception flags its evaluation
raises. Following the source: save and clear the environment
(`feholdexcept`), run the child, test the four exception flags; on a fault,
restore the environment and raise a descriptive error; otherwise restore
the environment and return the child's output unchanged. -/
def SafeMaths.guardedCall (hdr : String) (f : IOsptr → IOsptr × FPFlags)
    (input : IOsptr) (env : FEnv) : Except String IOsptr × FEnv :=
  let envp := env
  let held := feholdexcept env
  let r := f input
  let cur : FEnv := ⟨held.ctrl, orFlags held.flags r.2⟩
  if fetestexcept4 cur.flags then
    (.error (hdr ++ safeMathsMsg cur.flags), feupdateenv envp cur)
  else
    (.ok r.1, feupdateenv envp cur)

/-- Evaluating the child closure directly (unwrapped), in a given
floating-point environment: the output, and the environment with the newly
raised flags accumulated. -/
def plainCall (f : IOsptr → IOsptr × FPFlags) (input : IOsptr) (env : FEnv) :
    IOsptr × FEnv :=
  ((f input).1, ⟨env.ctrl, orFlags env.flags (f input).2⟩)

theorem orFlags_cleared_left (b : FPFlags) : orFlags clearedFlags b = b := by
  cases b
  simp [orFlags, clearedFlags]

theorem orFlags_cleared_right (a : FPFlags) : orFlags a clearedFlags = a := by
  cases a
  simp [orFlags, clearedFlags]

theorem fetestexcept4_cleared : fetestexcept4 clearedFlags = false := rfl

/-- C1: wrapping a function in the SafeMaths guard is transparent on
fault-free evaluations: if the wrapped function's evaluation raises no
hardware floating-point exception at all, the guarded call returns exactly
the value the unwrapped call computes (bit-identical, i.e. the same
`IOsptr` value), and the global floating-point environment after the
guarded call is exactly the environment before it. -/
theorem safeMaths_faultfree_transparent (hdr : String)
    (f : IOsptr → IOsptr × FPFlags) (input : IOsptr) (env : FEnv)
    (h : (f input).2 = clearedFlags) :
    SafeMaths.guardedCall hdr f input env = (.ok (plainCall f input env).1, env) := by
  simp only [SafeMaths.guardedCall, feholdexcept, h, orFlags_cleared_left,
    orFlags_cleared_right]
  simp [fetestexcept4_cleared, feupdateenv, plainCall, orFlags_cleared_right, h]

/-- Witness for C1 at a concrete fault-free closure and environment. -/
theorem safeMaths_faultfree_transparent_witness :
    SafeMaths.guardedCall "hdr" (fun _ => (IOsptr.ioDouble IOType.Scalar [⟨3⟩], clearedFlags))
      IOsptr.otherKind ⟨⟨1, clearedFlags⟩, ⟨false, true, false, false, true⟩⟩
    = (.ok (IOsptr.ioDouble IOType.Scalar [⟨3⟩]),
       ⟨⟨1, clearedFlags⟩, ⟨false, true, false, false, true⟩⟩) :=
  safeMaths_faultfree_transparent "hdr"
    (fun _ => (IOsptr.ioDouble IOType.Scalar [⟨3⟩], clearedFlags))
    IOsptr.otherKind ⟨⟨1, clearedFlags⟩, ⟨false, true, false, false, true⟩⟩ rfl

/-- C2: if the wrapped function's evaluation raises any of the divide-by-zero,
invalid, overflow or underflow flags, the guarded call returns a descriptive
error instead of the computed value; the error message names exactly the
exceptions among those four that fired; and the environment afterwards is the
`feupdateenv`-restored one: control modes exactly as before the call, and
status flags the prior flags with the newly fired exceptions still pending
(the C semantics of restoring an environment with `feupdateenv`). -/
theorem safeMaths_fault_raises_error (hdr : String)
    (f : IOsptr → IOsptr × FPFlags) (input : IOsptr) (env : FEnv)
    (h : fetestexcept4 (f input).2 = true) :
    SafeMaths.guardedCall hdr f input env
      = (.error (hdr ++ safeMathsMsg (f input).2),
         feupdateenv env ⟨(feholdexcept env).ctrl, (f input).2⟩)
    ∧ (feupdateenv env ⟨(feholdexcept env).ctrl, (f input).2⟩).ctrl = env.ctrl
    ∧ (feupdateenv env ⟨(feholdexcept env).ctrl, (f input).2⟩).flags
        = orFlags env.flags (f input).2
    ∧ ((f input).2.divbyzero = true ↔ "Divide by zero".data <:+: (safeMathsMsg (f input).2).data)
    ∧ ((f input).2.invalid = true ↔ "Invalid domain".data <:+: (safeMathsMsg (f input).2).data)
    ∧ ((f input).2.overflow = true ↔ "Value overflow".data <:+: (safeMathsMsg (f input).2).data)
    ∧ ((f input).2.underflow = true ↔ "Value underflow".data <:+: (safeMathsMsg (f input).2).data) := by
  have hmsg : ∀ fl : FPFlags,
      (fl.divbyzero = true ↔ "Divide by zero".data <:+: (safeMathsMsg fl).data)
      ∧ (fl.invalid = true ↔ "Invalid domain".data <:+: (safeMathsMsg fl).data)
      ∧ (fl.overflow = true ↔ "Value overflow".data <:+: (safeMathsMsg fl).data)
      ∧ (fl.underflow = true ↔ "Value underflow".data <:+: (safeMathsMsg fl).data) := by
    intro fl
    rcases fl with ⟨d, i, o, u, x⟩
    cases d <;> cases i <;> cases o <;> cases u <;> cases x <;> decide
  refine ⟨?_, rfl, rfl, (hmsg _).1, (hmsg _).2.1, (hmsg _).2.2.1, (hmsg _).2.2.2⟩
  simp [SafeMaths.guardedCall, feholdexcept, feupdateenv, orFlags_cleared_left, h]

/-- Witness for C2 at a concrete closure that raises divide-by-zero. -/
theorem safeMaths_fault_raises_error_witness :
    SafeMaths.guardedCall "" (fun _ => (IOsptr.otherKind, ⟨true, false, false, false, false⟩))
      IOsptr.otherKind ⟨⟨0, clearedFlags⟩, clearedFlags⟩
      = (.error ("" ++ safeMathsMsg ⟨true, false, false, false, false⟩),
         feupdateenv ⟨⟨0, clearedFlags⟩, clearedFlags⟩
           ⟨(feholdexcept ⟨⟨0, clearedFlags⟩, clearedFlags⟩).ctrl, ⟨true, false, false, false, false⟩⟩)
    ∧ (feupdateenv ⟨⟨0, clearedFlags⟩, clearedFlags⟩
         ⟨(feholdexcept ⟨⟨0, clearedFlags⟩, clearedFlags⟩).ctrl, ⟨true, false, false, false, false⟩⟩).ctrl
        = FEnv.ctrl ⟨⟨0, clearedFlags⟩, clearedFlags⟩
    ∧ (feupdateenv ⟨⟨0, clearedFlags⟩, clearedFlags⟩
         ⟨(feholdexcept ⟨⟨0, clearedFlags⟩, clearedFlags⟩).ctrl, ⟨true, false, false, false, false⟩⟩).flags
        = orFlags clearedFlags ⟨true, false, false, false, false⟩
    ∧ ((true : Bool) = true ↔ "Divide by zero".data <:+: (safeMathsMsg ⟨true, false, false, false, false⟩).data)
    ∧ ((false : Bool) = true ↔ "Invalid domain".data <:+: (safeMathsMsg ⟨true, false, false, false, false⟩).data)
    ∧ ((false : Bool) = true ↔ "Value overflow".data <:+: (safeMathsMsg ⟨true, false, false, false, false⟩).data)
    ∧ ((false : Bool) = true ↔ "Value underflow".data <:+: (safeMathsMsg ⟨true, false, false, false, false⟩).data) :=
  safeMaths_fault_raises_error ""
    (fun _ => (IOsptr.otherKind, ⟨true, false, false, false, false⟩))
    IOsptr.otherKind ⟨⟨0, clearedFlags⟩, clearedFlags⟩ rfl

/- ============================ Fn::At ============================ -/

/-- The error message of `Fn::At::getFunction` when the argument function
does not return an `IO_double` (Unary.cpp line 28). -/
def atTypeMsg : String :=
  "Argument function is expected to return " ++ squote ++ "double" ++ squote ++ " type object."

/-- The error message of `Fn::At::getFunction` for an out-of-range component
(Unary.cpp lines 31-34). `funcio->size()` is a C `unsigned`, so the
`size()-1` printed in the message wraps modulo 2^32 when the size is zero. -/
def atRangeMsg (component n : Nat) : String :=
  "Trying to extract component " ++ toString component ++
    (" from from object with size " ++ toString n ++
      (".\nIndex must be in [0," ++ toString ((n + (2 ^ 32 - 1)) % 2 ^ 32) ++ "]."))

/-- Fn::At::getFunction (Unary.cpp lines 15-54): `fn` is the optional
argument function `_fn` (already reduced to its closure); when absent the
child is the lambda returning its input. The sample output must cast to
`IO_double` and have size greater than the extracted component, else a
construction-time error; the returned closure copies the bytes of component
`component` of the child's raw output buffer into a one-element scalar
output (a read past the buffer is undefined behaviour in the source and is
modelled by the default element). -/
def At.getFunction (component : Nat) (hdr : String)
    (fn : Option (IOsptr → IOsptr)) (sample_input : IOsptr) :
    Except String (IOsptr → IOsptr) :=
  match (fn.getD id) sample_input with
  | .ioDouble _ d =>
      if d.length ≤ component then
        .error (hdr ++ atRangeMsg component d.length)
      else
        .ok (fun input => .ioDouble IOType.Scalar
          [((fn.getD id) input).rawData.getD component ⟨0⟩])
  | _ => .error (hdr ++ atTypeMsg)

theorem substr_mid (a b c : String) : b.data <:+: (a ++ b ++ c).data := by
  rw [String.data_append, String.data_append]
  exact List.infix_append a.data b.data c.data

theorem substr_right (a b : String) (x : List Char) (h : x <:+: b.data) :
    x <:+: (a ++ b).data := by
  rw [String.data_append]
  obtain ⟨s, t, ht⟩ := h
  exact ⟨a.data ++ s, t, by rw [← ht]; simp [List.append_assoc]⟩

/-- C3 counterexample: the claim asserts that the error raised when the
argument function does not return a double-typed object carries a message
stating the offending index and size; in the code that error's message is
the fixed string of `atTypeMsg`, which contains no digit at all — in
particular, for component index 5 it does not mention 5. -/
theorem At_typeMsg_counterexample :
    At.getFunction 5 "" none IOsptr.otherKind = .error ("" ++ atTypeMsg)
    ∧ ¬ ("5".data <:+: ("" ++ atTypeMsg).data)
    ∧ ("" ++ atTypeMsg).data.filter Char.isDigit = [] :=
  ⟨rfl, by decide, by decide⟩

/-- C3 (amended): for an argument function whose evaluation at the sample
input yields a double-valued object of size n, `At::getFunction` succeeds
when the component is below n and fails at construction time when it is not,
with a message stating the offending index and size; when the argument
function does not return a double-typed object, `At::getFunction` fails at
construction time with the fixed type-mismatch message (which names the
expected double type but no index or size). -/
theorem At_getFunction_validation (component : Nat) (hdr : String)
    (fn : Option (IOsptr → IOsptr)) (sample_input : IOsptr) :
    (∀ iot d, (fn.getD id) sample_input = .ioDouble iot d →
      (component < d.length → ∃ c, At.getFunction component hdr fn sample_input = .ok c)
      ∧ (d.length ≤ component →
          At.getFunction component hdr fn sample_input
            = .error (hdr ++ atRangeMsg component d.length)
          ∧ (toString component).data <:+: (atRangeMsg component d.length).data
          ∧ (toString d.length).data <:+: (atRangeMsg component d.length).data))
    ∧ (((fn.getD id) sample_input).isIODouble = false →
        At.getFunction component hdr fn sample_input = .error (hdr ++ atTypeMsg)) := by
  constructor
  · intro iot d hfd
    have e : At.getFunction component hdr fn sample_input
        = if d.length ≤ component then .error (hdr ++ atRangeMsg component d.length)
          else .ok (fun input => .ioDouble IOType.Scalar
            [((fn.getD id) input).rawData.getD component ⟨0⟩]) := by
      unfold At.getFunction
      rw [hfd]
    constructor
    · intro hlt
      exact ⟨_, by rw [e, if_neg (Nat.not_le.mpr hlt)]⟩
    · intro hge
      refine ⟨by rw [e, if_pos hge], ?_, ?_⟩
      · exact substr_mid "Trying to extract component " (toString component) _
      · exact substr_right ("Trying to extract component " ++ toString component) _ _
          (substr_mid " from from object with size " (toString d.length) _)
  · intro hB
    rcases hfs : (fn.getD id) sample_input with ⟨iot, d⟩ | ⟨m, i, lc⟩ | ⟨o, i⟩ | _
    · rw [hfs] at hB
      simp [IOsptr.isIODouble] at hB
    · unfold At.getFunction
      rw [hfs]
    · unfold At.getFunction
      rw [hfs]
    · unfold At.getFunction
      rw [hfs]

/-- Witness for (amended) C3: component 1 of a size-2 object succeeds,
component 5 of a size-2 object fails with the range message. -/
theorem At_getFunction_validation_witness :
    (∃ c, At.getFunction 1 "" none (IOsptr.ioDouble IOType.Vector [⟨1⟩, ⟨2⟩]) = .ok c)
    ∧ At.getFunction 5 "" none (IOsptr.ioDouble IOType.Vector [⟨1⟩, ⟨2⟩])
        = .error ("" ++ atRangeMsg 5 2) :=
  ⟨((At_getFunction_validation 1 "" none (IOsptr.ioDouble IOType.Vector [⟨1⟩, ⟨2⟩])).1
      IOType.Vector [⟨1⟩, ⟨2⟩] rfl).1 (by decide),
   (((At_getFunction_validation 5 "" none (IOsptr.ioDouble IOType.Vector [⟨1⟩, ⟨2⟩])).1
      IOType.Vector [⟨1⟩, ⟨2⟩] rfl).2 (by decide)).1⟩

/-- C7: for the component-extraction node, all type and shape validation
happens at `getFunction` (closure construction) time: any closure it
returns is a pure, total extraction fixed at construction time — on every
subsequent input it performs no re-validation, can raise none of the
construction-time type/shape errors, and always returns the component
determined at construction (so repeated calls with same-shaped inputs are
identical, and changing the effective shape can only be done through a
fresh `getFunction` call). -/
theorem At_closure_no_revalidation (component : Nat) (hdr : String)
    (fn : Option (IOsptr → IOsptr)) (sample_input : IOsptr)
    (c : IOsptr → IOsptr)
    (h : At.getFunction component hdr fn sample_input = .ok c) :
    ∀ input, c input
      = .ioDouble IOType.Scalar [((fn.getD id) input).rawData.getD component ⟨0⟩] := by
  intro input
  rcases hfs : (fn.getD id) sample_input with ⟨iot, d⟩ | ⟨m, i, lc⟩ | ⟨o, i⟩ | _
  · have e : At.getFunction component hdr fn sample_input
        = if d.length ≤ component then .error (hdr ++ atRangeMsg component d.length)
          else .ok (fun input => .ioDouble IOType.Scalar
            [((fn.getD id) input).rawData.getD component ⟨0⟩]) := by
      unfold At.getFunction
      rw [hfs]
    rw [e] at h
    by_cases hle : d.length ≤ component
    · rw [if_pos hle] at h
      simp at h
    · rw [if_neg hle] at h
      simp only [Except.ok.injEq] at h
      rw [← h]
  · unfold At.getFunction at h
    rw [hfs] at h
    simp at h
  · unfold At.getFunction at h
    rw [hfs] at h
    simp at h
  · unfold At.getFunction at h
    rw [hfs] at h
    simp at h

/-- Sample input used by the C7 witness. -/
def sampleAtEx : IOsptr := IOsptr.ioDouble IOType.Vector [⟨5⟩, ⟨9⟩]

/-- The concrete closure `At::getFunction` constructs for `sampleAtEx` and
component 1. -/
def cAtEx : IOsptr → IOsptr :=
  (At.getFunction 1 "" none sampleAtEx).toOption.getD id

/-- Witness for C7: the closure built for `sampleAtEx` extracts component 1
of a fresh input with no further checks. -/
theorem At_closure_no_revalidation_witness :
    cAtEx (IOsptr.ioDouble IOType.Vector [⟨10⟩, ⟨11⟩])
      = IOsptr.ioDouble IOType.Scalar [⟨11⟩] :=
  At_closure_no_revalidation 1 "" none sampleAtEx cAtEx rfl
    (IOsptr.ioDouble IOType.Vector [⟨10⟩, ⟨11⟩])

/-- C9: an At node constructed with no argument function treats the child
as the identity: `getFunction` applies the double-type and index-bounds
checks directly to the sample input (equivalently to wrapping the identity
function), and the returned closure extracts the component directly from
the evaluation input itself. -/
theorem At_noFn_identity (component : Nat) (hdr : String) (sample_input : IOsptr) :
    At.getFunction component hdr none sample_input
      = At.getFunction component hdr (some id) sample_input
    ∧ (∀ iot d, sample_input = .ioDouble iot d →
        (component < d.length →
          At.getFunction component hdr none sample_input
            = .ok (fun input => .ioDouble IOType.Scalar
                [input.rawData.getD component ⟨0⟩]))
        ∧ (d.length ≤ component →
          At.getFunction component hdr none sample_input
            = .error (hdr ++ atRangeMsg component d.length)))
    ∧ (sample_input.isIODouble = false →
        At.getFunction component hdr none sample_input = .error (hdr ++ atTypeMsg)) := by
  refine ⟨rfl, ?_, ?_⟩
  · intro iot d hsd
    subst hsd
    have e : At.getFunction component hdr none (.ioDouble iot d)
        = if d.length ≤ component then .error (hdr ++ atRangeMsg component d.length)
          else .ok (fun input => .ioDouble IOType.Scalar
            [input.rawData.getD component ⟨0⟩]) := rfl
    constructor
    · intro hlt
      rw [e, if_neg (Nat.not_le.mpr hlt)]
    · intro hge
      rw [e, if_pos hge]
  · intro hB
    rcases sample_input with ⟨iot, d⟩ | ⟨m, i, lc⟩ | ⟨o, i⟩ | _
    · simp [IOsptr.isIODouble] at hB
    · rfl
    · rfl
    · rfl

/-- Witness for C9: with no argument function, component 0 of a scalar
sample yields the identity-extraction closure. -/
theorem At_noFn_identity_witness :
    At.getFunction 0 "" none (IOsptr.ioDouble IOType.Scalar [⟨4⟩])
      = .ok (fun input => IOsptr.ioDouble IOType.Scalar [input.rawData.getD 0 ⟨0⟩]) :=
  ((At_noFn_identity 0 "" (IOsptr.ioDouble IOType.Scalar [⟨4⟩])).2.1
      IOType.Scalar [⟨4⟩] rfl).1 (by decide)

/- ====================== Fn::GradFeVariableFn ====================== -/

/-- An FeVariable (finite-element field), with the fields read by
GradFeVariableFn: component count, spatial dimensionality, its FeMesh and
that mesh's parent mesh (both identified by their pointer). -/
structure FeVariable where
  fieldComponentCount : Nat
  dim : Nat
  feMesh : Nat
  parentMesh : Nat
deriving DecidableEq, Repr

/-- The StgFEM InterpolationResult status of a point-location or
interpolation query; this code only distinguishes LOCAL and SHADOW from
everything else. -/
inductive InterpolationResult
  | LOCAL
  | SHADOW
  | OTHER_PROC
  | OUTSIDE_GLOBAL
deriving DecidableEq, Repr

/-- The external StgFEM mesh/field primitives called by GradFeVariableFn's
closures, for one fixed FeVariable: `FeMesh_GetNodeElements` (elements
incident to a vertex, in incidence-list order), `Mesh_GetVertex`,
`FeMesh_CoordGlobalToLocal`,
`FeVariable_InterpolateDerivativesToElLocalCoord` (element index and local
coordinate to the derivative values written to the output buffer), and
`FeVariable_InterpolateDerivativesAt` (global coordinate to a status and
the derivative values). `showDouble` is the decimal rendering of a double
used when a coordinate is printed into an error message. -/
structure MeshOps where
  getNodeElements : Nat → List Nat
  getVertex : Nat → List DoubleBits
  coordGlobalToLocal : Nat → List DoubleBits → List DoubleBits
  interpolateDerivativesToElLocalCoord : Nat → List DoubleBits → List DoubleBits
  interpolateDerivativesAt : List DoubleBits → InterpolationResult × List DoubleBits
  showDouble : DoubleBits → String

/-- The IOType of GradFeVariableFn's output object (GradFeVariableFn.cpp
lines 47-51): Vector for a one-dimensional mesh, Tensor otherwise. -/
def gradIOType (fevar : FeVariable) : IOType :=
  if fevar.dim = 1 then IOType.Vector else IOType.Tensor

/-- The error raised by a closure's `debug_dynamic_cast` when the evaluation
input is not of the kind fixed at construction time (a caller precondition
violation in the source). -/
def debugCastMsg : String := "debug_dynamic_cast failure."

/-- The construction-time error of GradFeVariableFn::getFunction when the
sample input is compatible with none of the three input kinds
(GradFeVariableFn.cpp line 127). -/
def gradInvalidInputMsg : String :=
  squote ++ "GradFeVariableFn" ++ squote
    ++ " does not appear to be compatible with provided input type."

/-- The construction-time error of GradFeVariableFn::getFunction for a
global-coordinate sample whose size differs from the field's declared
dimensionality (GradFeVariableFn.cpp lines 100-104). -/
def gradDimMsg (inDim fieldDim : Nat) : String :=
  "Function input dimensionality (" ++ toString inDim ++
    (") does not appear to match mesh variable dimensionality ("
      ++ toString fieldDim ++ (")."))

/-- The coordinate list as printed into the range-error message
(GradFeVariableFn.cpp lines 113-115); reading coordinate 0 of an empty
object is undefined behaviour in the source and renders as the empty
string here. -/
def gradLocStr (ops : MeshOps) : List DoubleBits → String
  | [] => ""
  | x :: rest => ops.showDouble x ++ String.join (rest.map (fun v => ", " ++ ops.showDouble v))

/-- The range error raised at evaluation time by the global-coordinate
closure when point location finds the coordinate neither locally nor in the
shadow region (GradFeVariableFn.cpp lines 112-118). -/
def gradRangeMsg (ops : MeshOps) (coord : List DoubleBits) : String :=
  "FeVariable derivative interpolation at location (" ++ gradLocStr ops coord ++
    (") does not appear to be valid.\nLocation is probably outside local domain.")

/-- The closure for an element-local (FEMCoordinate) sample on the field's
parent mesh (GradFeVariableFn.cpp lines 60-66): interpolate derivatives at
the input's element and local coordinate. -/
def gradFemClosure (ops : MeshOps) (fevar : FeVariable) :
    IOsptr → Except String IOsptr := fun input =>
  match input with
  | .femCoordinate _ index lc =>
      .ok (.ioDouble (gradIOType fevar) (ops.interpolateDerivativesToElLocalCoord index lc))
  | _ => .error debugCastMsg

/-- The closure for a mesh-vertex (MeshCoordinate) sample on the identical
mesh (GradFeVariableFn.cpp lines 75-92): find the elements incident to the
vertex, take the last element in the incidence list, convert the vertex
coordinate to that element's local coordinate, and interpolate derivatives
there. (An empty incidence list is undefined behaviour in the source; it is
modelled by element 0.) -/
def gradMeshClosure (ops : MeshOps) (fevar : FeVariable) :
    IOsptr → Except String IOsptr := fun input =>
  match input with
  | .meshCoordinate _ index =>
      let nbrElList := ops.getNodeElements index
      let lastEl := nbrElList.getD (nbrElList.length - 1) 0
      let elLocalCoord := ops.coordGlobalToLocal lastEl (ops.getVertex index)
      .ok (.ioDouble (gradIOType fevar)
        (ops.interpolateDerivativesToElLocalCoord lastEl elLocalCoord))
  | _ => .error debugCastMsg

/-- The closure for a plain global-coordinate (IO_double) sample
(GradFeVariableFn.cpp lines 106-123): interpolate derivatives at the global
coordinate; if the location result is neither LOCAL nor SHADOW, raise a
range error, else return the interpolated derivatives. -/
def gradGlobalClosure (hdr : String) (ops : MeshOps) (fevar : FeVariable) :
    IOsptr → Except String IOsptr := fun input =>
  match input with
  | .ioDouble _ d =>
      let r := ops.interpolateDerivativesAt d
      if ¬ (r.1 = InterpolationResult.LOCAL ∨ r.1 = InterpolationResult.SHADOW) then
        .error (hdr ++ gradRangeMsg ops d)
      else
        .ok (.ioDouble (gradIOType fevar) r.2)
  | _ => .error debugCastMsg

/-- Fn::GradFeVariableFn::getFunction (GradFeVariableFn.cpp lines 40-130):
dispatch on the runtime kind of the sample input, in source order —
element-local coordinate on the field's parent mesh, then mesh-vertex
coordinate on the identical mesh, then plain global coordinate (whose size
must equal the field's dimensionality), else the final
incompatible-input-type error. A FEMCoordinate on a different mesh or a
MeshCoordinate on a different mesh object falls through the remaining
dynamic casts and also reaches the final error. -/
def GradFeVariableFn.getFunction (ops : MeshOps) (fevar : FeVariable)
    (hdr : String) (sample_input : IOsptr) :
    Except String (IOsptr → Except String IOsptr) :=
  match sample_input with
  | .femCoordinate mesh _ _ =>
      if mesh = fevar.parentMesh then .ok (gradFemClosure ops fevar)
      else .error (hdr ++ gradInvalidInputMsg)
  | .meshCoordinate object _ =>
      if object = fevar.feMesh then .ok (gradMeshClosure ops fevar)
      else .error (hdr ++ gradInvalidInputMsg)
  | .ioDouble _ data =>
      if data.length ≠ fevar.dim then
        .error (hdr ++ gradDimMsg data.length fevar.dim)
      else .ok (gradGlobalClosure hdr ops fevar)
  | .otherKind => .error (hdr ++ gradInvalidInputMsg)

/-- The StgFEM object passed to the GradFeVariableFn constructor, which
checks it is an instance of FeVariable_Type (`Stg_Class_IsInstance`). -/
inductive StgClassObj
  | feVariableInstance (v : FeVariable)
  | otherInstance
deriving DecidableEq, Repr

/-- The construction-time error of the GradFeVariableFn constructor
(GradFeVariableFn.cpp lines 33-38). -/
def gradNotFeVarMsg : String :=
  "Provided variable does not appear to be of " ++ squote ++ "MeshVariable" ++ squote ++ " type."

/-- Fn::GradFeVariableFn::GradFeVariableFn (GradFeVariableFn.cpp lines
33-38): constructing the node fails unless the provided object is an
FeVariable instance. -/
def GradFeVariableFn.construct (hdr : String) (obj : StgClassObj) :
    Except String FeVariable :=
  match obj with
  | .feVariableInstance v => .ok v
  | .otherInstance => .error (hdr ++ gradNotFeVarMsg)

theorem getD_last (l : List Nat) (h : l ≠ []) : l.getD (l.length - 1) 0 = l.getLast h := by
  have hl : 0 < l.length := List.length_pos.mpr h
  rw [List.getD_eq_getElem _ _ (by omega), List.getLast_eq_getElem]

/-- C4: the closure GradFeVariableFn::getFunction builds for a mesh-vertex
sample on the field's own mesh evaluates a vertex input by looking up the
elements incident to the vertex and interpolating derivatives using the
last element of the incidence list (converted to that element's local
coordinate); being a pure function of the incidence ordering, repeated
evaluations with the same ordering give identical results — a
deterministic tie-break. -/
theorem grad_vertex_uses_last_element (ops : MeshOps) (fevar : FeVariable)
    (hdr : String) (object sidx : Nat) (c : IOsptr → Except String IOsptr)
    (h : GradFeVariableFn.getFunction ops fevar hdr (.meshCoordinate object sidx) = .ok c)
    (object2 index : Nat) (hne : ops.getNodeElements index ≠ []) :
    c (.meshCoordinate object2 index)
      = .ok (.ioDouble (gradIOType fevar)
          (ops.interpolateDerivativesToElLocalCoord
            ((ops.getNodeElements index).getLast hne)
            (ops.coordGlobalToLocal ((ops.getNodeElements index).getLast hne)
              (ops.getVertex index))))
    ∧ c (.meshCoordinate object2 index) = c (.meshCoordinate object2 index) := by
  have h : (if object = fevar.feMesh then Except.ok (gradMeshClosure ops fevar)
      else Except.error (hdr ++ gradInvalidInputMsg)) = Except.ok c := h
  by_cases hobj : object = fevar.feMesh
  · rw [if_pos hobj] at h
    simp only [Except.ok.injEq] at h
    subst h
    refine ⟨?_, rfl⟩
    show Except.ok (IOsptr.ioDouble (gradIOType fevar)
        (ops.interpolateDerivativesToElLocalCoord
          ((ops.getNodeElements index).getD ((ops.getNodeElements index).length - 1) 0)
          (ops.coordGlobalToLocal
            ((ops.getNodeElements index).getD ((ops.getNodeElements index).length - 1) 0)
            (ops.getVertex index)))) = _
    rw [getD_last _ hne]
  · rw [if_neg hobj] at h
    simp at h

/-- External mesh primitives used by the concrete witnesses: vertex 0 has
incident elements [4, 7]; global-to-local conversion appends the element
index; derivative interpolation prepends the element index; global
interpolation reports the point outside the domain. -/
def opsEx : MeshOps where
  getNodeElements := fun _ => [4, 7]
  getVertex := fun _ => [⟨1⟩, ⟨2⟩]
  coordGlobalToLocal := fun e c => c ++ [⟨e⟩]
  interpolateDerivativesToElLocalCoord := fun e lc => ⟨e⟩ :: lc
  interpolateDerivativesAt := fun d => (InterpolationResult.OUTSIDE_GLOBAL, d)
  showDouble := fun v => toString v.bits

/-- Same primitives, but global interpolation succeeds locally. -/
def opsLocalEx : MeshOps :=
  { opsEx with interpolateDerivativesAt := fun d => (InterpolationResult.LOCAL, d) }

/-- A 2-component field on a 2-dimensional mesh: mesh object 10, parent
mesh 11. -/
def fevarEx : FeVariable := ⟨2, 2, 10, 11⟩

/-- The concrete closure built for a mesh-vertex sample on mesh 10. -/
def cMeshEx : IOsptr → Except String IOsptr :=
  (GradFeVariableFn.getFunction opsEx fevarEx "" (.meshCoordinate 10 0)).toOption.getD
    (fun _ => .error "")

/-- Witness for C4: with incidence list [4, 7] the closure interpolates in
element 7, the last of the list. -/
theorem grad_vertex_uses_last_element_witness :
    cMeshEx (IOsptr.meshCoordinate 10 0)
      = .ok (IOsptr.ioDouble IOType.Tensor [⟨7⟩, ⟨1⟩, ⟨2⟩, ⟨7⟩])
    ∧ cMeshEx (IOsptr.meshCoordinate 10 0) = cMeshEx (IOsptr.meshCoordinate 10 0) :=
  grad_vertex_uses_last_element opsEx fevarEx "" 10 0 cMeshEx rfl 10 0 (by decide)

/-- C5: for a plain global-coordinate sample whose size differs from the
field's declared dimensionality, getFunction fails at closure-construction
time with an error naming both sizes; the result is the same for arbitrary
interpolation/point-location primitives, i.e. the error is raised before
any interpolation or point location is attempted. -/
theorem grad_dim_mismatch_fatal (ops ops2 : MeshOps) (fevar : FeVariable)
    (hdr : String) (iot : IOType) (coord : List DoubleBits)
    (h : coord.length ≠ fevar.dim) :
    GradFeVariableFn.getFunction ops fevar hdr (.ioDouble iot coord)
      = .error (hdr ++ gradDimMsg coord.length fevar.dim)
    ∧ GradFeVariableFn.getFunction ops fevar hdr (.ioDouble iot coord)
      = GradFeVariableFn.getFunction ops2 fevar hdr (.ioDouble iot coord)
    ∧ (toString coord.length).data <:+: (gradDimMsg coord.length fevar.dim).data
    ∧ (toString fevar.dim).data <:+: (gradDimMsg coord.length fevar.dim).data := by
  have e : ∀ ops' : MeshOps,
      GradFeVariableFn.getFunction ops' fevar hdr (.ioDouble iot coord)
        = .error (hdr ++ gradDimMsg coord.length fevar.dim) := by
    intro ops'
    show (if coord.length ≠ fevar.dim then
        Except.error (hdr ++ gradDimMsg coord.length fevar.dim)
      else Except.ok (gradGlobalClosure hdr ops' fevar))
      = Except.error (hdr ++ gradDimMsg coord.length fevar.dim)
    rw [if_pos h]
  refine ⟨e ops, (e ops).trans (e ops2).symm, ?_, ?_⟩
  · exact substr_mid "Function input dimensionality (" (toString coord.length) _
  · exact substr_right ("Function input dimensionality (" ++ toString coord.length) _ _
      (substr_mid ") does not appear to match mesh variable dimensionality ("
        (toString fevar.dim) _)

/-- Witness for C5: a 3-vector sample against a 2-dimensional field. -/
theorem grad_dim_mismatch_fatal_witness :
    GradFeVariableFn.getFunction opsEx fevarEx "" (.ioDouble IOType.Vector [⟨1⟩, ⟨2⟩, ⟨3⟩])
      = .error ("" ++ gradDimMsg 3 2)
    ∧ GradFeVariableFn.getFunction opsEx fevarEx "" (.ioDouble IOType.Vector [⟨1⟩, ⟨2⟩, ⟨3⟩])
      = GradFeVariableFn.getFunction opsLocalEx fevarEx "" (.ioDouble IOType.Vector [⟨1⟩, ⟨2⟩, ⟨3⟩])
    ∧ (toString 3).data <:+: (gradDimMsg 3 2).data
    ∧ (toString 2).data <:+: (gradDimMsg 3 2).data :=
  grad_dim_mismatch_fatal opsEx opsLocalEx fevarEx "" IOType.Vector [⟨1⟩, ⟨2⟩, ⟨3⟩] (by decide)

/-- C6: the closure built from a plain global-coordinate sample fails at
evaluation time with a range error (whose message states the location is
probably outside the local domain) whenever the point-location result is
neither LOCAL nor SHADOW, and returns the interpolated derivatives without
error when the result is LOCAL or SHADOW. -/
theorem grad_global_closure_domain (ops : MeshOps) (fevar : FeVariable)
    (hdr : String) (iot : IOType) (coord : List DoubleBits)
    (c : IOsptr → Except String IOsptr)
    (h : GradFeVariableFn.getFunction ops fevar hdr (.ioDouble iot coord) = .ok c)
    (iot2 : IOType) (d : List DoubleBits) :
    (¬ ((ops.interpolateDerivativesAt d).1 = InterpolationResult.LOCAL
        ∨ (ops.interpolateDerivativesAt d).1 = InterpolationResult.SHADOW) →
      c (.ioDouble iot2 d) = .error (hdr ++ gradRangeMsg ops d)
      ∧ "Location is probably outside local domain.".data <:+: (gradRangeMsg ops d).data)
    ∧ (((ops.interpolateDerivativesAt d).1 = InterpolationResult.LOCAL
        ∨ (ops.interpolateDerivativesAt d).1 = InterpolationResult.SHADOW) →
      c (.ioDouble iot2 d)
        = .ok (.ioDouble (gradIOType fevar) (ops.interpolateDerivativesAt d).2)) := by
  have h : (if coord.length ≠ fevar.dim then
      Except.error (hdr ++ gradDimMsg coord.length fevar.dim)
    else Except.ok (gradGlobalClosure hdr ops fevar)) = Except.ok c := h
  by_cases hdim : coord.length ≠ fevar.dim
  · rw [if_pos hdim] at h
    simp at h
  · rw [if_neg hdim] at h
    simp only [Except.ok.injEq] at h
    subst h
    constructor
    · intro hres
      constructor
      · show (if ¬ ((ops.interpolateDerivativesAt d).1 = InterpolationResult.LOCAL
              ∨ (ops.interpolateDerivativesAt d).1 = InterpolationResult.SHADOW) then
            Except.error (hdr ++ gradRangeMsg ops d)
          else
            Except.ok (IOsptr.ioDouble (gradIOType fevar) (ops.interpolateDerivativesAt d).2)) = _
        rw [if_pos hres]
      · exact substr_right
          ("FeVariable derivative interpolation at location (" ++ gradLocStr ops d) _ _
          (by decide)
    · intro hres
      show (if ¬ ((ops.interpolateDerivativesAt d).1 = InterpolationResult.LOCAL
              ∨ (ops.interpolateDerivativesAt d).1 = InterpolationResult.SHADOW) then
            Except.error (hdr ++ gradRangeMsg ops d)
          else
            Except.ok (IOsptr.ioDouble (gradIOType fevar) (ops.interpolateDerivativesAt d).2)) = _
      rw [if_neg (not_not_intro hres)]

/-- The concrete closure built for a 2-vector global-coordinate sample. -/
def cGlobEx : IOsptr → Except String IOsptr :=
  (GradFeVariableFn.getFunction opsEx fevarEx "" (.ioDouble IOType.Vector [⟨1⟩, ⟨2⟩])).toOption.getD
    (fun _ => .error "")

/-- Witness for C6: with point location reporting OUTSIDE_GLOBAL, the
closure raises the range error. -/
theorem grad_global_closure_domain_witness :
    cGlobEx (IOsptr.ioDouble IOType.Vector [⟨1⟩, ⟨2⟩])
      = .error ("" ++ gradRangeMsg opsEx [⟨1⟩, ⟨2⟩])
    ∧ "Location is probably outside local domain.".data
        <:+: (gradRangeMsg opsEx [⟨1⟩, ⟨2⟩]).data :=
  (grad_global_closure_domain opsEx fevarEx "" IOType.Vector [⟨1⟩, ⟨2⟩] cGlobEx rfl
    IOType.Vector [⟨1⟩, ⟨2⟩]).1 (by decide)

/-- C10: a sample input that is none of the three supported coordinate
kinds makes getFunction fail at closure-construction time with the
incompatible-input-type error — this covers any other FunctionIO object,
an element-local coordinate on a mesh other than the field's parent mesh,
and a mesh-vertex coordinate on a mesh object other than the field's own
mesh; and constructing a GradFeVariableFn from an object that is not an
FeVariable instance fails at node-construction time. -/
theorem grad_incompatible_input (ops : MeshOps) (fevar : FeVariable) (hdr : String) :
    GradFeVariableFn.getFunction ops fevar hdr .otherKind
      = .error (hdr ++ gradInvalidInputMsg)
    ∧ (∀ mesh index lc, mesh ≠ fevar.parentMesh →
        GradFeVariableFn.getFunction ops fevar hdr (.femCoordinate mesh index lc)
          = .error (hdr ++ gradInvalidInputMsg))
    ∧ (∀ object index, object ≠ fevar.feMesh →
        GradFeVariableFn.getFunction ops fevar hdr (.meshCoordinate object index)
          = .error (hdr ++ gradInvalidInputMsg))
    ∧ GradFeVariableFn.construct hdr StgClassObj.otherInstance
        = .error (hdr ++ gradNotFeVarMsg) := by
  refine ⟨rfl, ?_, ?_, rfl⟩
  · intro mesh index lc hne
    show (if mesh = fevar.parentMesh then Except.ok (gradFemClosure ops fevar)
      else Except.error (hdr ++ gradInvalidInputMsg)) = Except.error (hdr ++ gradInvalidInputMsg)
    rw [if_neg hne]
  · intro object index hne
    show (if object = fevar.feMesh then Except.ok (gradMeshClosure ops fevar)
      else Except.error (hdr ++ gradInvalidInputMsg)) = Except.error (hdr ++ gradInvalidInputMsg)
    rw [if_neg hne]

/-- Witness for C10: an element-local coordinate on mesh 99, which is not
the field's parent mesh 11. -/
theorem grad_incompatible_input_witness :
    GradFeVariableFn.getFunction opsEx fevarEx "" (IOsptr.femCoordinate 99 0 [])
      = .error ("" ++ gradInvalidInputMsg) :=
  (grad_incompatible_input opsEx fevarEx "").2.1 99 0 [] (by decide)

/- ================== StokesSolver.set_inner_method ================== -/

/-- Modelled from the spec: the inner velocity-solve method names
recognized by `StokesSolver.set_inner_method` (the Python implementation in
`underworld/systems/_bsscr.py` is not among the provided sources; the list
follows the spec and the embedded help text of
docs/user_guide/09_StokesSolver.ipynb): mg (geometric multigrid, default),
mumps (MUMPS parallel direct), superludist (SuperLU parallel direct),
superlu (SuperLU, serial only), lu (LU, serial only). -/
def recognizedInnerMethods : List String := ["mg", "mumps", "superludist", "superlu", "lu"]

/-- Modelled from the spec: the serial-only inner methods, which cannot be
used in a multi-process run. -/
def serialOnlyInnerMethods : List String := ["lu", "superlu"]

/-- Modelled from the spec: `StokesSolver.set_inner_method` configuration
checking. Configuration errors — an invalid inner-solve method name, or a
serial-only method (lu, superlu) requested in a multi-process run — are
fatal and raised immediately at configure time, before any solve is
attempted; otherwise configuration succeeds. -/
def set_inner_method (nProcs : Nat) (solve_type : String) : Except String Unit :=
  if recognizedInnerMethods.contains solve_type = false then
    .error ("Unknown inner solve method: " ++ solve_type)
  else if serialOnlyInnerMethods.contains solve_type && decide (1 < nProcs) then
    .error ("Solver method " ++ solve_type
      ++ " is serial only and cannot be used in a multi-process run.")
  else
    .ok ()

/-- C8: Stokes-solver configuration errors are fatal at configure time: an
unrecognized inner-method name is rejected, a serial-only method (lu or
superlu) requested with more than one process is rejected, any other
configuration succeeds, and the recognized inner methods are exactly
multigrid (mg), the serial direct solvers (lu, superlu) and the parallel
direct solvers (mumps, superludist). -/
theorem set_inner_method_configure_errors (nProcs : Nat) (solve_type : String) :
    (recognizedInnerMethods.contains solve_type = false →
      set_inner_method nProcs solve_type
        = .error ("Unknown inner solve method: " ++ solve_type))
    ∧ (serialOnlyInnerMethods.contains solve_type = true → 1 < nProcs →
      ∃ e, set_inner_method nProcs solve_type = .error e)
    ∧ (recognizedInnerMethods.contains solve_type = true →
       (serialOnlyInnerMethods.contains solve_type = true → nProcs ≤ 1) →
      set_inner_method nProcs solve_type = .ok ())
    ∧ recognizedInnerMethods = ["mg", "mumps", "superludist", "superlu", "lu"]
    ∧ serialOnlyInnerMethods = ["lu", "superlu"] := by
  have e : set_inner_method nProcs solve_type
      = if recognizedInnerMethods.contains solve_type = false then
          Except.error ("Unknown inner solve method: " ++ solve_type)
        else if serialOnlyInnerMethods.contains solve_type && decide (1 < nProcs) then
          Except.error ("Solver method " ++ solve_type
            ++ " is serial only and cannot be used in a multi-process run.")
        else Except.ok () := rfl
  refine ⟨?_, ?_, ?_, rfl, rfl⟩
  · intro hr
    rw [e, if_pos hr]
  · intro hs hp
    by_cases hr : recognizedInnerMethods.contains solve_type = false
    · exact ⟨_, by rw [e, if_pos hr]⟩
    · have hcond : (serialOnlyInnerMethods.contains solve_type && decide (1 < nProcs)) = true := by
        rw [hs, decide_eq_true hp]
        rfl
      exact ⟨_, by rw [e, if_neg hr, if_pos hcond]⟩
  · intro hr hs
    have hr0 : ¬ (recognizedInnerMethods.contains solve_type = false) := by
      rw [hr]
      simp
    have hb : ¬ ((serialOnlyInnerMethods.contains solve_type && decide (1 < nProcs)) = true) := by
      cases hso : serialOnlyInnerMethods.contains solve_type
      · simp
      · have hle := hs hso
        simp only [Bool.true_and, decide_eq_true_eq]
        omega
    rw [e, if_neg hr0, if_neg hb]

/-- Witness for C8: an unknown name is rejected, lu on 4 processes is
rejected, mg on 4 processes and lu on 1 process are accepted. -/
theorem set_inner_method_configure_errors_witness :
    set_inner_method 1 "badname" = .error ("Unknown inner solve method: " ++ "badname")
    ∧ (∃ e, set_inner_method 4 "lu" = .error e)
    ∧ set_inner_method 4 "mg" = .ok ()
    ∧ set_inner_method 1 "lu" = .ok () :=
  ⟨(set_inner_method_configure_errors 1 "badname").1 (by decide),
   (set_inner_method_configure_errors 4 "lu").2.1 (by decide) (by decide),
   (set_inner_method_configure_errors 4 "mg").2.2.1 (by decide) (by decide),
   (set_inner_method_configure_errors 1 "lu").2.2.1 (by decide) (by decide)⟩

end UW2
